import Mathlib

/-!
Verification of the `oc_patch` module (src/library/oc_patch.py): a shallow
embedding of its JSON-pointer resolver, endpoint builder, patch-payload
builder, idempotency gate and response classifier, with theorems checking
the natural-language specification against the code.
-/

set_option maxRecDepth 4000

/-- JSON-like values as decoded from the wire by `response.json()`:
objects (ordered string-keyed mappings), sequences, strings, numbers,
booleans and null. -/
inductive Json where
  | null
  | bool (b : Bool)
  | num (n : Int)
  | str (s : String)
  | arr (elems : List Json)
  | obj (fields : List (String × Json))
deriving Repr

mutual

/-- Python structural equality `==` on JSON-like values. -/
def beqJson : Json → Json → Bool
  | Json.null, Json.null => true
  | Json.bool a, Json.bool b => a == b
  | Json.num a, Json.num b => a == b
  | Json.str a, Json.str b => a == b
  | Json.arr as, Json.arr bs => beqJsonList as bs
  | Json.obj as, Json.obj bs => beqJsonFields as bs
  | _, _ => false

def beqJsonList : List Json → List Json → Bool
  | [], [] => true
  | a :: as, b :: bs => beqJson a b && beqJsonList as bs
  | _, _ => false

def beqJsonFields : List (String × Json) → List (String × Json) → Bool
  | [], [] => true
  | (k, v) :: as, (l, w) :: bs => k == l && beqJson v w && beqJsonFields as bs
  | _, _ => false

end

instance : BEq Json := ⟨beqJson⟩

example : (Json.str "a" == Json.str "a") = true := by rfl
example : (Json.str "a" == Json.str "b") = false := by rfl
example : (Json.obj [("k", Json.num 3)] == Json.obj [("k", Json.num 3)]) = true := by rfl

/-- Python `dict.__getitem__` key lookup over the (ordered) field list. -/
def lookupField : List (String × Json) → String → Option Json
  | [], _ => none
  | (k, v) :: rest, key => if k = key then some v else lookupField rest key

/-- Python `str.split(sep)` for a single-character separator: keeps empty
chunks, always returns at least one chunk. -/
def splitCharAux (sep : Char) : List Char → List Char → List String
  | [], acc => [⟨acc.reverse⟩]
  | c :: cs, acc =>
      if c = sep then ⟨acc.reverse⟩ :: splitCharAux sep cs []
      else splitCharAux sep cs (c :: acc)

def pySplit (s : String) (sep : Char) : List String :=
  splitCharAux sep s.data []

/-- `mapPath = path.split("/"); del mapPath[0]` from `getPathValueFromDict`. -/
def parsePath (path : String) : List String :=
  (pySplit path '/').drop 1

/-- The two exception classes `reduce(operator.getitem, ...)` can raise that
the source distinguishes: `KeyError` (missing key in a dict) and any other
error (`TypeError` when indexing a non-dict with a string segment). -/
inductive PyError where
  | keyError
  | typeError
deriving DecidableEq, Repr

/-- `operator.getitem(container, segment)` for a string segment: succeeds on
a dict holding the key, raises `KeyError` on a dict missing it, and raises
`TypeError` on any non-dict value (strings, lists, numbers, booleans, null
all reject string subscripts). -/
def pyGetItem : Json → String → Except PyError Json
  | Json.obj fields, key =>
      match lookupField fields key with
      | some v => Except.ok v
      | none => Except.error PyError.keyError
  | _, _ => Except.error PyError.typeError

/-- `reduce(operator.getitem, mapPath, jsonDict)`: left fold, first raised
exception aborts the whole reduction. -/
def reduceGetItem : Json → List String → Except PyError Json
  | v, [] => Except.ok v
  | v, key :: rest =>
      match pyGetItem v key with
      | Except.ok v2 => reduceGetItem v2 rest
      | Except.error e => Except.error e

/-- `getPathValueFromDict(jsonDict, path)`: returns the resolved value, the
literal string sentinel "FailedKeyError" when a `KeyError` was raised, and
re-raises (modelled as `Except.error ()`) on any other traversal failure. -/
def getPathValueFromDict (jsonDict : Json) (path : String) : Except Unit Json :=
  match reduceGetItem jsonDict (parsePath path) with
  | Except.ok v => Except.ok v
  | Except.error PyError.keyError => Except.ok (Json.str "FailedKeyError")
  | Except.error PyError.typeError => Except.error ()

example : parsePath "/data/foo" = ["data", "foo"] := by decide
example : parsePath "/data/foo/" = ["data", "foo", ""] := by decide
example : parsePath "" = [] := by decide

/-- Python `str.lower()` over the character list (kernel-reducible, unlike
`String.toLower`). -/
def pyLower (s : String) : String :=
  ⟨s.data.map Char.toLower⟩

/-- Python `str.lstrip(chars)`: removes leading characters that belong to
the character SET of `chars` (not the literal string). -/
def pyLstrip (s : String) (chars : String) : String :=
  ⟨s.data.dropWhile (fun c => chars.data.contains c)⟩

/-- The `ApiEndpoint` class: fields as stored by `__init__`
(`self.host = host.lstrip('https://')`). `namespace` is a Lean keyword, so
the field is named `nspace`. -/
structure ApiEndpoint where
  host : String
  port : Nat
  nspace : String
  objectName : String
  objectType : String
deriving Repr

/-- `ApiEndpoint.__init__`. -/
def ApiEndpoint.init (host : String) (port : Nat)
    (nspace objectName objectType : String) : ApiEndpoint :=
  { host := pyLstrip host "https://"
    port := port
    nspace := nspace
    objectName := objectName
    objectType := objectType }

/-- `ApiEndpoint.__str__`. -/
def ApiEndpoint.toUrl (e : ApiEndpoint) : String :=
  "https://" ++ e.host ++ ":" ++ toString e.port ++ "/" ++
    "api/v1/namespaces/" ++ e.nspace ++ "/" ++
    pyLower e.objectType ++ "s/" ++ e.objectName

/-- URL construction as performed by building an `ApiEndpoint` and
rendering it (the EndpointBuilder contract `buildUrl`). -/
def buildUrl (host : String) (port : Nat)
    (nspace kind name : String) : String :=
  (ApiEndpoint.init host port nspace name kind).toUrl

/-- Python `sub in s` substring containment. -/
def strContains (s sub : String) : Bool :=
  containsAux sub.data s.data
where
  startsAux : List Char → List Char → Bool
    | [], _ => true
    | _ :: _, [] => false
    | a :: as, b :: bs => a == b && startsAux as bs
  containsAux (sub : List Char) : List Char → Bool
    | [] => startsAux sub []
    | c :: cs => startsAux sub (c :: cs) || containsAux sub cs

example : strContains "remove" "move" = true := by rfl
example : strContains "replace" "move" = false := by rfl

/-- Python `str.rstrip('/')`: removes every trailing slash. -/
def rstripSlash (s : String) : String :=
  ⟨(s.data.reverse.dropWhile (fun c => c = '/')).reverse⟩

/-- One element of the wire payload built by `patchObject`:
`{'op': ..., 'path': ...}` plus the optional `value` / `from` keys
(`from` is a Lean keyword, so the field is named `fromPath`). -/
structure WirePatch where
  op : String
  path : String
  value : Option Json
  fromPath : Option String
deriving Repr

/-- The payload construction of `patchObject` (lines 449-460): a
single-element list with `path` right-stripped of slashes; `value` is
attached when `"move" not in op` (note: `"move"` IS a substring of
`"remove"`, so `remove` gets neither field), `from` only when
`op == "move"`. -/
def buildPayload (op path : String) (value : Json) (fromVal : String) :
    List WirePatch :=
  let base : WirePatch :=
    { op := op, path := rstripSlash path, value := none, fromPath := none }
  let withFields :=
    if strContains op "move" = false then { base with value := some value }
    else if op = "move" then { base with fromPath := some fromVal }
    else base
  [withFields]

/-- The terminal result record passed to `module.exit_json` /
`module.fail_json`: `failed` distinguishes the two calls; `statusCode`,
`newValue`, `oldValue`, `test` use `none` for the literal `"N/A"`. -/
structure Outcome where
  failed : Bool
  msg : String
  changed : Bool
  json : Json
  statusCode : Option Nat
  newValue : Option Json
  oldValue : Option Json
  test : Option Bool
deriving Repr

/-- A PATCH/GET response as seen by `apiResponse`: status code plus the
decoded body `response.json()`. -/
structure ApiResult where
  status_code : Nat
  body : Json
deriving Repr

/-- The error-message substring matched in the 500 branch of
`apiResponse`. -/
def removeKeySubstring : String := "Unable to remove nonexistant key:"

/-- `apiResult.json()['message']`, followed by the `in` substring test's
demand for a string: raises (`error`) when the body is not a dict, lacks
the key, or holds a non-string message. -/
def getMessage (body : Json) : Except Unit String :=
  match body with
  | Json.obj fields =>
      match lookupField fields "message" with
      | some (Json.str s) => Except.ok s
      | some _ => Except.error ()
      | none => Except.error ()
  | _ => Except.error ()

/-- Python truthiness of `apiResult` as tested by `if not apiResult:`:
the idempotency gate's literal `0` (modelled by `none`) is falsy, and a
`requests.Response` is falsy exactly when `Response.ok` is false, i.e.
when its status code lies in [400, 600). -/
def pyFalsy : Option ApiResult → Bool
  | none => true
  | some r => decide (400 ≤ r.status_code ∧ r.status_code < 600)

/-- `apiResponse(module, apiResult, getResult)`.
`apiResult = none` models the falsy `0` passed by the idempotency gate of
`patchObject`; a `some` response with a 4xx/5xx status is falsy as well
and also enters the `if not apiResult:` block. `getBody` is
`getResult.json()`. The result is `ok (some outcome)` when the function
reaches `exit_json`/`fail_json`, `ok none` when it falls through every
branch and returns without producing any result, and `error ()` when it
raises. -/
def apiResponse (opRaw path : String) (apiResult : Option ApiResult)
    (getBody : Json) : Except Unit (Option Outcome) :=
  let op := pyLower opRaw
  -- `if not apiResult:` — only replace/add produce a result inside the
  -- block; any other falsy value falls through to the status-code chain
  -- (where the gate's integer 0 raises AttributeError on
  -- `apiResult.status_code`, while a falsy Response proceeds normally).
  if pyFalsy apiResult ∧ op = "replace" then
    Except.ok (some
      { failed := true
        msg := "NO CHANGE: Path does not already exist," ++
          " consider using add method"
        changed := false
        json := getBody
        statusCode := none
        newValue := none
        oldValue := none
        test := none })
  else if pyFalsy apiResult ∧ op = "add" then
    Except.ok (some
      { failed := true
        msg := "NO CHANGE: Path already exists, " ++
          "consider using replace method."
        changed := false
        json := getBody
        statusCode := none
        newValue := none
        oldValue := none
        test := none })
  else
  match apiResult with
  | none => Except.error ()
  | some r =>
      if 200 ≤ r.status_code ∧ r.status_code ≤ 299 then
        if op = "replace" ∨ op = "add" ∨ op = "remove" then do
          let apiResultValue ← getPathValueFromDict r.body path
          let getResultValue ← getPathValueFromDict getBody path
          if apiResultValue == getResultValue then
            Except.ok (some
              { failed := false
                msg := "NO CHANGE: " ++ op ++
                  " successful, specified path already contained value."
                changed := false
                json := r.body
                statusCode := some r.status_code
                newValue := some apiResultValue
                oldValue := some getResultValue
                test := none })
          else
            -- NB: the source sets changed=False here as well, although
            -- the message announces a change.
            Except.ok (some
              { failed := false
                msg := "CHANGED: " ++ op ++
                  " successful, specified path was updated with new value."
                changed := false
                json := r.body
                statusCode := some r.status_code
                newValue := some apiResultValue
                oldValue := some getResultValue
                test := none })
        else if op = "test" then
          Except.ok (some
            { failed := false
              msg := "NO CHANGE: Test successful, " ++
                "specified path contains value."
              changed := false
              json := r.body
              statusCode := some r.status_code
              newValue := none
              oldValue := none
              test := some true })
        else if op = "move" then
          Except.ok (some
            { failed := false
              msg := "CHANGED: " ++ op ++
                " sucessful, specified path sucessfully moved."
              changed := true
              json := r.body
              statusCode := some r.status_code
              newValue := none
              oldValue := none
              test := none })
        else if op = "get" then
          Except.ok (some
            { failed := false
              msg := "NO CHANGE: " ++ op ++ " sucessful."
              changed := true
              json := r.body
              statusCode := some r.status_code
              newValue := none
              oldValue := none
              test := none })
        else Except.ok none
      else if r.status_code = 401 then
        Except.ok (some
          { failed := true
            msg := "FAILURE: Server refused action, check your credentials."
            changed := false
            json := r.body
            statusCode := some r.status_code
            newValue := none
            oldValue := none
            test := none })
      else if r.status_code = 500 then
        -- The elif chain: the `and` short-circuits, so the message is
        -- only read for remove/move; an unmatched combination falls out
        -- of the function with no result at all.
        if op = "remove" then do
          let m ← getMessage r.body
          if strContains m removeKeySubstring then
            Except.ok (some
              { failed := false
                msg := "NO CHANGE: Key to be removed is already non-existant"
                changed := false
                json := r.body
                statusCode := some r.status_code
                newValue := none
                oldValue := none
                test := none })
          else Except.ok none
        else if op = "move" then do
          let m ← getMessage r.body
          if strContains m removeKeySubstring then
            Except.ok (some
              { failed := true
                msg := "FAILED: Key to be moved does not exist in this path."
                changed := false
                json := r.body
                statusCode := some r.status_code
                newValue := none
                oldValue := none
                test := none })
          else Except.ok none
        else if op = "test" then
          Except.ok (some
            { failed := false
              msg := "NO CHANGE: Test unsucessful, " ++
                "specified path does not contain value."
              changed := false
              json := r.body
              statusCode := some r.status_code
              newValue := none
              oldValue := none
              test := some false })
        else Except.ok none
      else
        Except.ok (some
          { failed := true
            msg := "FAILED: API call returned failure code."
            changed := false
            json := r.body
            statusCode := some r.status_code
            newValue := none
            oldValue := none
            test := some false })

/-- How far one invocation of `patchObject` gets: either the idempotency
gate short-circuits via `apiResponse(module, 0, getResult)` (a terminal
failure, no PATCH issued), or the function proceeds to issue the mutating
PATCH with the given payload. -/
inductive PatchStep where
  | shortCircuit (out : Outcome)
  | patchCall (payload : List WirePatch)
deriving Repr

/-- `patchObject(module, getResult)` up to the point the mutating network
call is (or is not) issued: the resolution of the request path in the GET
body, the replace/add idempotency gate, and the payload construction.
`error ()` models the uncaught exception of `getPathValueFromDict`. -/
def patchObject (opRaw path : String) (getBody : Json) (value : Json)
    (fromVal : String) : Except Unit PatchStep := do
  let op := pyLower opRaw
  let getResultValue ← getPathValueFromDict getBody path
  if getResultValue == Json.str "FailedKeyError" then
    if op = "replace" then
      match apiResponse opRaw path none getBody with
      | Except.ok (some o) => pure (PatchStep.shortCircuit o)
      | _ => Except.error ()
    else pure (PatchStep.patchCall (buildPayload op path value fromVal))
  else
    if op = "add" then
      match apiResponse opRaw path none getBody with
      | Except.ok (some o) => pure (PatchStep.shortCircuit o)
      | _ => Except.error ()
    else pure (PatchStep.patchCall (buildPayload op path value fromVal))

/-- The branch of `main` an invocation reaches after the leading-slash
check, the unconditional GET, and the operation dispatch. -/
inductive MainRoute where
  | failNoSlash
  | getOp
  | dispatchPatch
  | badOp
deriving Repr, DecidableEq

/-- `re.match("^/", path)`. -/
def startsWithSlash (path : String) : Bool :=
  match path.data with
  | c :: _ => c = '/'
  | [] => false

/-- The operation names of the dispatch regex
`re.search("\b" + op + "\b", "replace|add|remove|move|test")`: for an
operation made of word characters the pattern matches exactly when the
operation is one of the five alternatives. -/
def dispatchTable : List String := ["replace", "add", "remove", "move", "test"]

def opInDispatch (op : String) : Bool := dispatchTable.contains op

/-- The control flow of `main` (lines 500-545): the leading-slash check
runs first (for non-`get` operations), then the GET via `getObject` is
performed unconditionally, and only afterwards the operation is
dispatched; an unrecognised operation reaches the final `fail_json`
("Please select an operation from: ...") only after that GET. -/
def mainDispatch (opRaw path : String) : MainRoute :=
  let op := pyLower opRaw
  if op ≠ "get" ∧ startsWithSlash path = false then MainRoute.failNoSlash
  else if op = "get" then MainRoute.getOp
  else if opInDispatch op then MainRoute.dispatchPatch
  else MainRoute.badOp

/-- Number of GET network calls `main` has issued by the time it reaches
the given branch: the call to `getObject` at line 513 precedes every
branch except the leading-slash failure. -/
def getCallsBefore : MainRoute → Nat
  | MainRoute.failNoSlash => 0
  | _ => 1

/-- Whether any mutating PATCH can be issued on the given branch: only the
dispatch to `patchObject` can reach `request.patch()`. -/
def patchPossible : MainRoute → Bool
  | MainRoute.dispatchPatch => true
  | _ => false

def Json.isObj : Json → Bool
  | Json.obj _ => true
  | _ => false

/-- Specification-level resolution: the pointer segments walk the value
mapping by mapping and reach the sub-value `w` (the pointer is present). -/
inductive ResolvesTo : Json → List String → Json → Prop where
  | nil (v : Json) : ResolvesTo v [] v
  | cons {fields : List (String × Json)} {key : String} {v w : Json}
      {rest : List String} :
      lookupField fields key = some v → ResolvesTo v rest w →
      ResolvesTo (Json.obj fields) (key :: rest) w

/-- Specification-level absence: the walk proceeds through mappings until
a segment addresses a key its mapping does not hold (the pointer is
absent, with the first failure a missing key). -/
inductive MissingKey : Json → List String → Prop where
  | here {fields : List (String × Json)} {key : String} {rest : List String} :
      lookupField fields key = none →
      MissingKey (Json.obj fields) (key :: rest)
  | there {fields : List (String × Json)} {key : String} {v : Json}
      {rest : List String} :
      lookupField fields key = some v → MissingKey v rest →
      MissingKey (Json.obj fields) (key :: rest)

/-- Specification-level malformed traversal: the walk proceeds through
mappings until a remaining segment indexes into a non-mapping value. -/
inductive BadTraversal : Json → List String → Prop where
  | here {v : Json} {key : String} {rest : List String} :
      v.isObj = false → BadTraversal v (key :: rest)
  | there {fields : List (String × Json)} {key : String} {v : Json}
      {rest : List String} :
      lookupField fields key = some v → BadTraversal v rest →
      BadTraversal (Json.obj fields) (key :: rest)

/-- The terminal failure produced by `apiResponse(module, 0, getResult)`
for a `replace` whose path the idempotency gate found absent. -/
def replaceMissingOutcome (getBody : Json) : Outcome :=
  { failed := true
    msg := "NO CHANGE: Path does not already exist, consider using add method"
    changed := false
    json := getBody
    statusCode := none
    newValue := none
    oldValue := none
    test := none }

/-- The terminal failure produced by `apiResponse(module, 0, getResult)`
for an `add` whose path the idempotency gate found present. -/
def addExistsOutcome (getBody : Json) : Outcome :=
  { failed := true
    msg := "NO CHANGE: Path already exists, consider using replace method."
    changed := false
    json := getBody
    statusCode := none
    newValue := none
    oldValue := none
    test := none }

/-- GET body `{"data": {"k": "old"}}` of the C1 scenario. -/
def c1PriorBody : Json := Json.obj [("data", Json.obj [("k", Json.str "old")])]

/-- PATCH response body `{"data": {"k": "new"}}` of the C1 scenario. -/
def c1RespBody : Json := Json.obj [("data", Json.obj [("k", Json.str "new")])]

/-- A GET body that stores the literal sentinel string at `/data/k`. -/
def collideBody : Json :=
  Json.obj [("data", Json.obj [("k", Json.str "FailedKeyError")])]

/-- A GET body that stores the literal sentinel string at `/data/x`. -/
def collideBodyX : Json :=
  Json.obj [("data", Json.obj [("x", Json.str "FailedKeyError")])]

/-- A GET body `{"data": {"foo": "x"}}` used for the trailing-slash
resolution scenario. -/
def c6Root : Json := Json.obj [("data", Json.obj [("foo", Json.str "x")])]

theorem resolvesTo_reduceGetItem {root : Json} {segs : List String} {v : Json}
    (h : ResolvesTo root segs v) : reduceGetItem root segs = Except.ok v := by
  induction h with
  | nil v => rfl
  | cons hlook _ ih => simp [reduceGetItem, pyGetItem, hlook, ih]

theorem missingKey_reduceGetItem {root : Json} {segs : List String}
    (h : MissingKey root segs) :
    reduceGetItem root segs = Except.error PyError.keyError := by
  induction h with
  | here hlook => simp [reduceGetItem, pyGetItem, hlook]
  | there hlook _ ih => simp [reduceGetItem, pyGetItem, hlook, ih]

theorem badTraversal_reduceGetItem {root : Json} {segs : List String}
    (h : BadTraversal root segs) :
    reduceGetItem root segs = Except.error PyError.typeError := by
  induction h with
  | here hv =>
      rename_i v key rest
      cases v <;> simp_all [reduceGetItem, pyGetItem, Json.isObj]
  | there hlook _ ih => simp [reduceGetItem, pyGetItem, hlook, ih]

/-- Claim C8: `getPathValueFromDict` returns the exact sub-value at a
present pointer, the `"FailedKeyError"` sentinel (without raising) when a
segment addresses a missing key of a mapping, and raises a traversal
error distinct from the sentinel when a segment indexes a non-mapping
value. -/
theorem c8_path_resolver (root : Json) (path : String) :
    (∀ v, ResolvesTo root (parsePath path) v →
      getPathValueFromDict root path = Except.ok v)
    ∧ (MissingKey root (parsePath path) →
      getPathValueFromDict root path = Except.ok (Json.str "FailedKeyError"))
    ∧ (BadTraversal root (parsePath path) →
      getPathValueFromDict root path = Except.error ()) := by
  refine ⟨fun v h => ?_, fun h => ?_, fun h => ?_⟩
  · unfold getPathValueFromDict
    rw [resolvesTo_reduceGetItem h]
  · unfold getPathValueFromDict
    rw [missingKey_reduceGetItem h]
  · unfold getPathValueFromDict
    rw [badTraversal_reduceGetItem h]

/-- Witness for C8 at `{"data": {"k": "x"}}` and pointer `/data/k`. -/
theorem c8_path_resolver_witness :
    getPathValueFromDict (Json.obj [("data", Json.obj [("k", Json.str "x")])])
      "/data/k" = Except.ok (Json.str "x") :=
  (c8_path_resolver (Json.obj [("data", Json.obj [("k", Json.str "x")])])
      "/data/k").1 (Json.str "x")
    (by
      have hp : parsePath "/data/k" = ["data", "k"] := rfl
      rw [hp]
      exact ResolvesTo.cons rfl (ResolvesTo.cons rfl (ResolvesTo.nil _)))

/-- Claim C1: on a 2xx PATCH response to replace/add/remove whose response
body holds a different value at the request path than the prior GET body,
the classifier emits the "CHANGED" message yet sets `changed := false` —
the changed flag does NOT equal the value comparison the specification
demands (the source passes `changed=False` in both branches). -/
theorem c1_changed_flag_states_false :
    apiResponse "replace" "/data/k"
        (some { status_code := 200, body := c1RespBody }) c1PriorBody =
      Except.ok (some
        { failed := false
          msg := "CHANGED: replace successful," ++
            " specified path was updated with new value."
          changed := false
          json := c1RespBody
          statusCode := some 200
          newValue := some (Json.str "new")
          oldValue := some (Json.str "old")
          test := none })
    ∧ (Json.str "new" == Json.str "old") = false := ⟨rfl, rfl⟩

/-- Claim C2: unmatched status/kind combinations do NOT get the generic
"API call failed" failure the specification promises. A 500 response is
falsy (a `requests.Response` with status ≥ 400 is), so for replace/add
the `not apiResult` block fires and `fail_json`s the misleading
"Path does not already exist" / "Path already exists" gate message
instead; and a 500 response to remove or move whose message lacks the
documented substring falls through every branch of the classifier,
producing no Outcome at all. -/
theorem c2_unmatched_500_misrouted (body getBody : Json) (path : String) :
    apiResponse "replace" path (some { status_code := 500, body := body })
        getBody = Except.ok (some (replaceMissingOutcome getBody))
    ∧ apiResponse "add" path (some { status_code := 500, body := body })
        getBody = Except.ok (some (addExistsOutcome getBody))
    ∧ apiResponse "remove" path
        (some { status_code := 500
                body := Json.obj [("message", Json.str "boom")] }) getBody =
      Except.ok none
    ∧ apiResponse "move" path
        (some { status_code := 500
                body := Json.obj [("message", Json.str "boom")] }) getBody =
      Except.ok none := ⟨rfl, rfl, rfl, rfl⟩

/-- Claim C10: a 500 response to a `test` operation is classified as a
non-failing Outcome with `changed = false` and `testResult = false` for
every response body — the message content is never inspected for `test`
(the remove/move substring conditions short-circuit on the operation
name). -/
theorem c10_test_500_success (body getBody : Json) (path : String) :
    apiResponse "test" path (some { status_code := 500, body := body })
        getBody =
      Except.ok (some
        { failed := false
          msg := "NO CHANGE: Test unsucessful, " ++
            "specified path does not contain value."
          changed := false
          json := body
          statusCode := some 500
          newValue := none
          oldValue := none
          test := some false }) := rfl

/-- Claim C4: `host.lstrip('https://')` strips by character set, not by
literal prefix, so host `"https://host"` loses its leading `h` as well:
the produced URL is `https://ost:443/...`, not the
`https://host:443/...` the specification states. -/
theorem c4_lstrip_eats_host :
    buildUrl "https://host" 443 "ns" "ConfigMap" "cm1" =
      "https://ost:443/api/v1/namespaces/ns/configmaps/cm1"
    ∧ buildUrl "https://host" 443 "ns" "ConfigMap" "cm1" ≠
      "https://host:443/api/v1/namespaces/ns/configmaps/cm1" := by
  refine ⟨by decide, by decide⟩

/-- Claim C6: the empty segment produced by a trailing slash is NOT
stripped before resolution — `/data/foo/` attempts an extra lookup with
the empty-string key, so on `{"data": {"foo": "x"}}` it raises a
traversal error while `/data/foo` resolves to `"x"`: the two pointers do
not resolve to the same result. -/
theorem c6_trailing_slash_changes_resolution :
    getPathValueFromDict c6Root "/data/foo" = Except.ok (Json.str "x")
    ∧ getPathValueFromDict c6Root "/data/foo/" = Except.error ()
    ∧ getPathValueFromDict c6Root "/data/foo/" ≠
        getPathValueFromDict c6Root "/data/foo" := by
  refine ⟨rfl, rfl, ?_⟩
  intro h
  exact Except.noConfusion h

/-- Claim C7: `patchObject` builds a single-element wire patch whose `op`
is the operation kind and whose `path` has every trailing slash removed;
`value` is attached for replace/add/test, `remove` carries neither
`value` nor `from`, and only `move` carries `from` (and no `value`); the
spec round-trip example `/data/k/` strips to `/data/k`. -/
theorem c7_payload_shape (path : String) (value : Json) (fromVal : String) :
    buildPayload "replace" path value fromVal =
      [{ op := "replace", path := rstripSlash path
         value := some value, fromPath := none }]
    ∧ buildPayload "add" path value fromVal =
      [{ op := "add", path := rstripSlash path
         value := some value, fromPath := none }]
    ∧ buildPayload "test" path value fromVal =
      [{ op := "test", path := rstripSlash path
         value := some value, fromPath := none }]
    ∧ buildPayload "remove" path value fromVal =
      [{ op := "remove", path := rstripSlash path
         value := none, fromPath := none }]
    ∧ buildPayload "move" path value fromVal =
      [{ op := "move", path := rstripSlash path
         value := none, fromPath := some fromVal }]
    ∧ rstripSlash "/data/k/" = "/data/k" :=
  ⟨rfl, rfl, rfl, rfl, rfl, rfl⟩

/-- Claim C9: the `"FailedKeyError"` sentinel collides with data — on a
GET body whose value at `/data/k` is the literal string
`"FailedKeyError"`, the resolver reports that present value, yet the
idempotency gate short-circuits a `replace` to the "path does not
already exist" failure and lets an `add` proceed to the mutating PATCH:
the opposite of the documented present-path behaviour. -/
theorem c9_sentinel_collision :
    reduceGetItem collideBody (parsePath "/data/k") =
      Except.ok (Json.str "FailedKeyError")
    ∧ patchObject "replace" "/data/k" collideBody (Json.str "v") "" =
      Except.ok (PatchStep.shortCircuit (replaceMissingOutcome collideBody))
    ∧ patchObject "add" "/data/k" collideBody (Json.str "v") "" =
      Except.ok (PatchStep.patchCall
        (buildPayload "add" "/data/k" (Json.str "v") "")) :=
  ⟨rfl, rfl, rfl⟩

/-- Counterexample to claim C5 as stated: on a GET body whose value at
`/data/x` IS present (the literal string `"FailedKeyError"`), an `add`
request does not short-circuit — it proceeds to the mutating PATCH
call. -/
theorem c5_add_present_proceeds :
    reduceGetItem collideBodyX (parsePath "/data/x") =
      Except.ok (Json.str "FailedKeyError")
    ∧ patchObject "add" "/data/x" collideBodyX (Json.str "v") "" =
      Except.ok (PatchStep.patchCall
        (buildPayload "add" "/data/x" (Json.str "v") "")) :=
  ⟨rfl, rfl⟩

/-- Claim C5 (amended): an `add` whose path resolves to a present value
OTHER THAN the literal sentinel string `"FailedKeyError"` short-circuits
to the "path already exists" terminal failure without issuing the PATCH,
and a `replace` whose path resolution hits a missing key short-circuits
to the "path does not already exist" terminal failure without issuing
the PATCH. -/
theorem c5_gate_short_circuits (getBody value : Json) (path fromVal : String) :
    (∀ v, reduceGetItem getBody (parsePath path) = Except.ok v →
      (v == Json.str "FailedKeyError") = false →
      patchObject "add" path getBody value fromVal =
        Except.ok (PatchStep.shortCircuit (addExistsOutcome getBody)))
    ∧ (reduceGetItem getBody (parsePath path) = Except.error PyError.keyError →
      patchObject "replace" path getBody value fromVal =
        Except.ok (PatchStep.shortCircuit (replaceMissingOutcome getBody))) := by
  constructor
  · intro v hok hne
    simp [patchObject, getPathValueFromDict, hok, hne, apiResponse,
      addExistsOutcome, pyLower, pyFalsy, bind, Except.bind, pure, Except.pure]
  · intro hmiss
    simp [patchObject, getPathValueFromDict, hmiss, apiResponse,
      replaceMissingOutcome, pyLower, pyFalsy, bind, Except.bind, pure,
      Except.pure]
    rfl

/-- Witness for the amended C5 at `{"data": {"p": "here"}}`. -/
theorem c5_gate_short_circuits_witness :
    patchObject "add" "/data/p"
        (Json.obj [("data", Json.obj [("p", Json.str "here")])])
        (Json.str "nv") "" =
      Except.ok (PatchStep.shortCircuit (addExistsOutcome
        (Json.obj [("data", Json.obj [("p", Json.str "here")])]))) :=
  (c5_gate_short_circuits
      (Json.obj [("data", Json.obj [("p", Json.str "here")])])
      (Json.str "nv") "/data/p" "").1 (Json.str "here") rfl rfl

/-- Counterexample to claim C3 as stated: for the unsupported operation
`"frobnicate"` (with a well-formed path) `main` does fail with the
operation-selection configuration error, but only on the `badOp` branch,
which the GET network call of line 513 precedes — a network call IS
attempted before the failure. -/
theorem c3_get_precedes_bad_op_failure :
    mainDispatch "frobnicate" "/data/x" = MainRoute.badOp
    ∧ getCallsBefore (mainDispatch "frobnicate" "/data/x") ≠ 0 := by
  refine ⟨rfl, ?_⟩
  intro h
  exact Nat.noConfusion h

/-- Claim C3 (amended): for every operation string whose lowercase form
consists of word characters and lies outside the closed enumeration
`{get, replace, add, remove, move, test}`, and every slash-leading path,
`main` fails with the operation-selection configuration error and no
PATCH can be attempted — but the GET network call is performed before
that failure, not zero network calls. -/
theorem c3_bad_op_fails_after_get (op path : String)
    (_halpha : (pyLower op).data.all (fun c => c.isAlpha) = true)
    (hget : pyLower op ≠ "get")
    (htable : pyLower op ∉ dispatchTable)
    (hslash : startsWithSlash path = true) :
    mainDispatch op path = MainRoute.badOp
    ∧ getCallsBefore (mainDispatch op path) = 1
    ∧ patchPossible (mainDispatch op path) = false := by
  have hroute : mainDispatch op path = MainRoute.badOp := by
    unfold mainDispatch
    rw [if_neg (by simp [hslash]), if_neg hget, if_neg]
    simp [opInDispatch, htable]
  exact ⟨hroute, by rw [hroute]; rfl, by rw [hroute]; rfl⟩

/-- Witness for the amended C3 at operation `"shazam"` and path `/p`. -/
theorem c3_bad_op_fails_after_get_witness :
    mainDispatch "shazam" "/p" = MainRoute.badOp
    ∧ getCallsBefore (mainDispatch "shazam" "/p") = 1
    ∧ patchPossible (mainDispatch "shazam" "/p") = false :=
  c3_bad_op_fails_after_get "shazam" "/p" (by decide) (by decide)
    (by decide) (by decide)
